import Mathlib

/-!
# Shallow embedding of `OpcUaEndpointDiscovery`

Model of `src/imports/opcua/opcuaendpointdiscovery.cpp` (Qt OPC UA QML
endpoint-discovery element).

The C++ object holds five fields (`m_serverUrl`, `m_connection`,
`m_endpoints`, `m_status`, `m_componentCompleted`) and mutates them from
a single thread through the slots `setServerUrl`, `setConnection`,
`componentComplete`, `startRequestEndpoints` and `handleEndpoints`.
We model each slot as a pure function `State → State × List Event`,
where the event list records, in order, the Qt signal emissions
(`serverUrlChanged`, `connectionChanged`, `endpointsChanged`,
`countChanged`, `statusChanged`) and the transport call
`requestEndpoints(url)`.

Qt signal/slot connections made in the constructor are direct
(synchronous): `serverUrlChanged → startRequestEndpoints` and
`connectionChanged → startRequestEndpoints`.  Hence `setServerUrl` and
`setConnection` run `startRequestEndpoints` inline right after emitting
their change signal.  Inside `startRequestEndpoints`, the branch
`if (!m_connection) { connection(); return; }` may call
`setConnection(OpcUaConnection::defaultConnection())`, whose
`connectionChanged` emission synchronously re-enters
`startRequestEndpoints`; on that re-entrant call `m_connection` is
already set, so the recursion stops there.  We inline that single
re-entrant level explicitly (`startRequestCore` handles the body that
runs once a connection is stored), which makes every function
structurally terminating while reproducing the C++ control flow and
emission order exactly.
-/

/-- An endpoint description: an opaque value record passed through
unchanged.  A default-constructed `QOpcUaEndpointDescription()` is the
invalid sentinel returned by `at` for an out-of-range row. -/
structure QOpcUaEndpointDescription where
  endpointUrl : String
deriving DecidableEq, Repr

/-- The invalid sentinel: `QOpcUaEndpointDescription()`. -/
def QOpcUaEndpointDescription.invalid : QOpcUaEndpointDescription :=
  { endpointUrl := "" }

namespace QOpcUa

/-- `QOpcUa::Good` (0x00000000). -/
def Good : Nat := 0x00000000

/-- `QOpcUa::GoodCompletesAsynchronously` (0x002F0000). -/
def GoodCompletesAsynchronously : Nat := 0x002F0000

/-- `QOpcUa::UncertainInitialValue` (0x40920000): uncertain severity,
top bit clear. -/
def UncertainInitialValue : Nat := 0x40920000

/-- `QOpcUa::BadUnexpectedError` (0x80010000). -/
def BadUnexpectedError : Nat := 0x80010000

/-- `QOpcUa::BadNotConnected` (0x808A0000). -/
def BadNotConnected : Nat := 0x808A0000

/-- `QOpcUa::BadInvalidArgument` (0x80AB0000). -/
def BadInvalidArgument : Nat := 0x80AB0000

/-- Modelled from the spec: `QOpcUa::isSuccessStatus` lives in
`qopcuatype.cpp`, which is not under `src/`.  Per the OPC UA status-code
convention the spec's error taxonomy follows ({Good, GoodPending,
Bad...}), a 32-bit status code is bad exactly when its top (severity)
bit is set; every other code (the good and uncertain families) is a
success code. -/
def isSuccessStatus (statusCode : Nat) : Bool :=
  statusCode % 2 ^ 32 < 2 ^ 31

end QOpcUa

/-- Modelled from the spec: class `OpcUaStatus` (`opcuastatus.cpp`, not
under `src/`) wraps the raw UA status code received from the backend;
"Translate `statusCode` into StatusValue" is this wrapping. -/
structure OpcUaStatus where
  m_statusCode : Nat
deriving DecidableEq, Repr

/-- Modelled from the spec: `OpcUaStatus::isGood`, true for success
(non-bad) codes. -/
def OpcUaStatus.isGood (s : OpcUaStatus) : Bool :=
  QOpcUa.isSuccessStatus s.m_statusCode

/-- Modelled from the spec: `OpcUaStatus::isBad`, true exactly for
bad-severity codes. -/
def OpcUaStatus.isBad (s : OpcUaStatus) : Bool :=
  ! QOpcUa.isSuccessStatus s.m_statusCode

/-- A connection collaborator (`OpcUaConnection*`).  `id` models pointer
identity; `hasClient` models whether its `m_client` backend pointer is
non-null. -/
structure OpcUaConnection where
  id : Nat
  hasClient : Bool
deriving DecidableEq, Repr

/-- The process-wide environment: `OpcUaConnection::defaultConnection()`
may or may not yield a registered default connection. -/
structure Env where
  defaultConnection : Option OpcUaConnection
deriving DecidableEq, Repr

/-- Observable effects, in emission order: the five Qt signals and the
transport call `m_client->requestEndpoints(url)`. -/
inductive Event where
  | serverUrlChanged (url : String)
  | connectionChanged (id : Nat)
  | endpointsChanged
  | countChanged
  | statusChanged
  | requestEndpoints (url : String)
deriving DecidableEq, Repr

/-- The member state of one `OpcUaEndpointDiscovery` object. -/
structure DiscoveryState where
  m_serverUrl : String
  m_connection : Option OpcUaConnection
  m_endpoints : List QOpcUaEndpointDescription
  m_status : OpcUaStatus
  m_componentCompleted : Bool
deriving DecidableEq, Repr

/-- State right after the constructor: default-constructed members,
`m_componentCompleted = false`. -/
def initState : DiscoveryState :=
  { m_serverUrl := ""
    m_connection := none
    m_endpoints := []
    m_status := { m_statusCode := QOpcUa.Good }
    m_componentCompleted := false }

/-- `QVector::at(i)`: asserts `0 <= i < size`; `none` models the failed
assertion (out-of-bounds access) on a violating index. -/
def QVector.at (l : List α) (i : Int) : Option α :=
  if 0 ≤ i then l[i.toNat]? else none

namespace OpcUaEndpointDiscovery

/-- `OpcUaEndpointDiscovery::count`. -/
def count (s : DiscoveryState) : Nat :=
  s.m_endpoints.length

/-- `OpcUaEndpointDiscovery::at(int row)`: returns the default-constructed
sentinel when `row >= m_endpoints.count()`, otherwise falls through to
`m_endpoints.at(row)` (which asserts its bounds — `none` on violation). -/
def atRow (s : DiscoveryState) (row : Int) : Option QOpcUaEndpointDescription :=
  if (count s : Int) ≤ row then some QOpcUaEndpointDescription.invalid
  else QVector.at s.m_endpoints row

/-- Body of `OpcUaEndpointDiscovery::startRequestEndpoints` from line 238
on (`auto conn = connection()` with `m_connection` already stored, so
`connection()` just returns it): the `BadNotConnected` /
`BadInvalidArgument` / request-issuing branch, then
`emit endpointsChanged(); emit statusChanged();`. -/
def startRequestCore (s : DiscoveryState) : DiscoveryState × List Event :=
  match s.m_connection with
  | none => (s, [])
  | some conn =>
    if !conn.hasClient then
      ({ s with m_status := { m_statusCode := QOpcUa.BadNotConnected } },
        [Event.endpointsChanged, Event.statusChanged])
    else if s.m_serverUrl.isEmpty then
      ({ s with m_status := { m_statusCode := QOpcUa.BadInvalidArgument } },
        [Event.endpointsChanged, Event.statusChanged])
    else
      ({ s with m_status := { m_statusCode := QOpcUa.GoodCompletesAsynchronously } },
        [Event.requestEndpoints s.m_serverUrl, Event.endpointsChanged,
          Event.statusChanged])

/-- `OpcUaEndpointDiscovery::startRequestEndpoints`.  When
`m_connection` is null it calls `connection()`, which runs
`setConnection(OpcUaConnection::defaultConnection())` and returns: if no
default connection exists that is a no-op, otherwise the stored
connection changes and the `connectionChanged` emission synchronously
re-enters this slot — we inline that single re-entrant execution (its
guards pass again, it clears `m_endpoints` again and reaches
`startRequestCore` since `m_connection` is now set). -/
def startRequestEndpoints (env : Env) (s : DiscoveryState) :
    DiscoveryState × List Event :=
  if !s.m_componentCompleted then (s, [])
  else if s.m_serverUrl.isEmpty then (s, [])
  else
    match s.m_connection with
    | some _ => startRequestCore { s with m_endpoints := [] }
    | none =>
      match env.defaultConnection with
      | none => ({ s with m_endpoints := [] }, [])
      | some c =>
        ((startRequestCore { s with m_endpoints := [], m_connection := some c }).1,
          Event.connectionChanged c.id ::
            (startRequestCore { s with m_endpoints := [], m_connection := some c }).2)

/-- `OpcUaEndpointDiscovery::setServerUrl`: no-op when unchanged,
otherwise stores the url and emits `serverUrlChanged`, whose direct
connection runs `startRequestEndpoints` synchronously. -/
def setServerUrl (env : Env) (s : DiscoveryState) (serverUrl : String) :
    DiscoveryState × List Event :=
  if serverUrl = s.m_serverUrl then (s, [])
  else
    ((startRequestEndpoints env { s with m_serverUrl := serverUrl }).1,
      Event.serverUrlChanged serverUrl ::
        (startRequestEndpoints env { s with m_serverUrl := serverUrl }).2)

/-- `OpcUaEndpointDiscovery::setConnection`: no-op when the pointer is
identical or null; otherwise stores the connection, re-subscribes
(`connectSignals`, no member-state effect) and emits
`connectionChanged`, whose direct connection runs
`startRequestEndpoints` synchronously. -/
def setConnection (env : Env) (s : DiscoveryState)
    (conn : Option OpcUaConnection) : DiscoveryState × List Event :=
  match conn with
  | none => (s, [])
  | some c =>
    if s.m_connection = some c then (s, [])
    else
      ((startRequestEndpoints env { s with m_connection := some c }).1,
        Event.connectionChanged c.id ::
          (startRequestEndpoints env { s with m_connection := some c }).2)

/-- `OpcUaEndpointDiscovery::componentComplete`: set the flag, then run
`startRequestEndpoints`. -/
def componentComplete (env : Env) (s : DiscoveryState) :
    DiscoveryState × List Event :=
  startRequestEndpoints env { s with m_componentCompleted := true }

/-- `OpcUaEndpointDiscovery::handleEndpoints`: the transport completion
callback.  A response whose `requestUrl` differs from the current
`m_serverUrl` is discarded silently; otherwise the status code is
wrapped into `m_status`, and on a non-bad status the endpoint list is
replaced wholesale and `endpointsChanged`, `countChanged`,
`statusChanged` are emitted in that order. -/
def handleEndpoints (s : DiscoveryState)
    (endpoints : List QOpcUaEndpointDescription) (statusCode : Nat)
    (requestUrl : String) : DiscoveryState × List Event :=
  if requestUrl ≠ s.m_serverUrl then (s, [])
  else if OpcUaStatus.isBad { m_statusCode := statusCode } then
    ({ s with m_status := { m_statusCode := statusCode } }, [Event.statusChanged])
  else
    ({ s with
        m_status := { m_statusCode := statusCode }
        m_endpoints := endpoints },
      [Event.endpointsChanged, Event.countChanged, Event.statusChanged])

/-- One externally triggerable call on the object. -/
inductive Op where
  | setServerUrl (url : String)
  | setConnection (conn : Option OpcUaConnection)
  | componentComplete
  | startRequestEndpoints
  | handleEndpoints (endpoints : List QOpcUaEndpointDescription)
      (statusCode : Nat) (requestUrl : String)
deriving DecidableEq, Repr

/-- The construction-phase property setters. -/
def Op.isConfig : Op → Bool
  | Op.setServerUrl _ => true
  | Op.setConnection _ => true
  | _ => false

/-- Dispatch one call. -/
def applyOp (env : Env) (s : DiscoveryState) : Op → DiscoveryState × List Event
  | Op.setServerUrl url => setServerUrl env s url
  | Op.setConnection conn => setConnection env s conn
  | Op.componentComplete => componentComplete env s
  | Op.startRequestEndpoints => startRequestEndpoints env s
  | Op.handleEndpoints endpoints code url => handleEndpoints s endpoints code url

/-- Run a sequence of calls, concatenating the emitted events. -/
def runOps (env : Env) : DiscoveryState → List Op → DiscoveryState × List Event
  | s, [] => (s, [])
  | s, op :: ops =>
    ((runOps env (applyOp env s op).1 ops).1,
      (applyOp env s op).2 ++ (runOps env (applyOp env s op).1 ops).2)

/-- The discovery requests sent to the transport within an event trace. -/
def requestsOf (evs : List Event) : List String :=
  evs.filterMap fun e =>
    match e with
    | Event.requestEndpoints url => some url
    | _ => none

/-- The connection `startRequestEndpoints` would end up using: the stored
one, or else the process-wide default adopted lazily by `connection()`. -/
def resolvedConnection (env : Env) (s : DiscoveryState) : Option OpcUaConnection :=
  match s.m_connection with
  | some c => some c
  | none => env.defaultConnection

/-- Whether a `startRequestEndpoints` run from `s` (with the completed
flag set) reaches the request-issuing branch: non-empty target and a
resolvable connection with a live backend client. -/
def canIssue (env : Env) (s : DiscoveryState) : Bool :=
  !s.m_serverUrl.isEmpty &&
    match resolvedConnection env s with
    | some c => c.hasClient
    | none => false

end OpcUaEndpointDiscovery

/-! ## Concrete fixtures -/

/-- Environment with no registered default connection. -/
def envNone : Env := { defaultConnection := none }

/-- A connection whose backend client is live. -/
def connLive : OpcUaConnection := { id := 1, hasClient := true }

/-- A connection whose backend client is null. -/
def connDead : OpcUaConnection := { id := 2, hasClient := false }

/-- A sample endpoint description. -/
def ep0 : QOpcUaEndpointDescription := { endpointUrl := "opc.tcp://h:4840" }

/-- Another sample endpoint description. -/
def ep1 : QOpcUaEndpointDescription := { endpointUrl := "opc.tcp://h:4843" }

/-- A state holding two endpoint descriptions. -/
def twoEpState : DiscoveryState := { initState with m_endpoints := [ep0, ep1] }

/-- A state whose current discovery target is `"a"`. -/
def urlAState : DiscoveryState :=
  { initState with m_serverUrl := "a", m_componentCompleted := true }

/-- Construction finished with target `"a"`, a live connection stored. -/
def readyState : DiscoveryState :=
  { initState with
    m_serverUrl := "a"
    m_connection := some connLive
    m_componentCompleted := true }

/-- Construction finished, empty target, live connection, `Good` status. -/
def emptyUrlState : DiscoveryState :=
  { initState with m_connection := some connLive, m_componentCompleted := true }

/-! ## Helper lemmas -/

open OpcUaEndpointDiscovery

theorem startRequestCore_serverUrl (s : DiscoveryState) :
    (startRequestCore s).1.m_serverUrl = s.m_serverUrl := by
  unfold startRequestCore
  split
  · rfl
  · split
    · rfl
    · split
      · rfl
      · rfl

theorem startRequestEndpoints_serverUrl (env : Env) (s : DiscoveryState) :
    (startRequestEndpoints env s).1.m_serverUrl = s.m_serverUrl := by
  unfold startRequestEndpoints
  split
  · rfl
  · split
    · rfl
    · split
      · exact startRequestCore_serverUrl _
      · split
        · rfl
        · exact startRequestCore_serverUrl _

theorem startRequestCore_endpoints (s : DiscoveryState) :
    (startRequestCore s).1.m_endpoints = s.m_endpoints := by
  unfold startRequestCore
  split
  · rfl
  · split
    · rfl
    · split
      · rfl
      · rfl

theorem startRequestEndpoints_endpoints_empty (env : Env) (s : DiscoveryState)
    (h : s.m_endpoints = []) :
    (startRequestEndpoints env s).1.m_endpoints = [] := by
  unfold startRequestEndpoints
  split
  · exact h
  · split
    · exact h
    · split
      · exact startRequestCore_endpoints _
      · split
        · rfl
        · exact startRequestCore_endpoints _

theorem setServerUrl_result_serverUrl (env : Env) (s : DiscoveryState)
    (url : String) : (setServerUrl env s url).1.m_serverUrl = url := by
  unfold setServerUrl
  split
  · next h => exact h.symm
  · exact startRequestEndpoints_serverUrl env _

theorem setServerUrl_noop_of_eq (env : Env) (s : DiscoveryState) (url : String)
    (h : s.m_serverUrl = url) : setServerUrl env s url = (s, []) := by
  unfold setServerUrl
  exact if_pos h.symm

/-! ## Claim theorems -/

/-- C3: a completion whose originating address differs from the current
discovery target is discarded silently: the whole member state
(ResultSet, StatusValue, stored target, connection reference) is
unchanged and no signal is emitted, for any result list and status
code. -/
theorem handleEndpoints_stale_silent_discard (s : DiscoveryState)
    (endpoints : List QOpcUaEndpointDescription) (statusCode : Nat)
    (requestUrl : String) (h : requestUrl ≠ s.m_serverUrl) :
    handleEndpoints s endpoints statusCode requestUrl = (s, []) := by
  unfold handleEndpoints
  exact if_pos h

/-- Witness for C3 at a concrete stale response. -/
theorem handleEndpoints_stale_silent_discard_witness :
    ("b" : String) ≠ urlAState.m_serverUrl ∧
      handleEndpoints urlAState [ep0] QOpcUa.Good "b" = (urlAState, []) :=
  ⟨by decide,
    handleEndpoints_stale_silent_discard urlAState [ep0] QOpcUa.Good "b"
      (by decide)⟩

/-- C7: `setServerUrl` with the currently stored address changes no
state, emits nothing and sends no request; and a second `setServerUrl`
with the same address right after a first one is a complete no-op, so
setting the same target twice yields only the first call's single
discovery request. -/
theorem setServerUrl_same_address_noop (env : Env) (s : DiscoveryState)
    (url : String) :
    (s.m_serverUrl = url → setServerUrl env s url = (s, [])) ∧
      setServerUrl env (setServerUrl env s url).1 url
        = ((setServerUrl env s url).1, []) :=
  ⟨setServerUrl_noop_of_eq env s url,
    setServerUrl_noop_of_eq env (setServerUrl env s url).1 url
      (setServerUrl_result_serverUrl env s url)⟩

/-- Witness for C7 on a concrete state and address. -/
theorem setServerUrl_same_address_noop_witness :
    setServerUrl envNone urlAState "a" = (urlAState, []) ∧
      setServerUrl envNone (setServerUrl envNone urlAState "a").1 "a"
        = ((setServerUrl envNone urlAState "a").1, []) :=
  ⟨(setServerUrl_same_address_noop envNone urlAState "a").1 rfl,
    (setServerUrl_same_address_noop envNone urlAState "a").2⟩

/-- C2 (amended): `startRequestEndpoints` with an empty target address is
a complete no-op — state unchanged (status is NOT set to
`BadInvalidArgument`, the ResultSet is not touched), no signal emitted,
no request sent.  The `BadInvalidArgument` branch in the body is
unreachable because of this early return. -/
theorem startRequestEndpoints_emptyUrl_noop (env : Env) (s : DiscoveryState)
    (h : s.m_serverUrl.isEmpty = true) :
    startRequestEndpoints env s = (s, []) := by
  unfold startRequestEndpoints
  split
  · rfl
  · simp [h]

/-- Witness for amended C2 at a concrete completed state with a live
connection and empty target. -/
theorem startRequestEndpoints_emptyUrl_noop_witness :
    emptyUrlState.m_serverUrl.isEmpty = true ∧
      startRequestEndpoints envNone emptyUrlState = (emptyUrlState, []) :=
  ⟨by decide, startRequestEndpoints_emptyUrl_noop envNone emptyUrlState (by decide)⟩

/-- Counterexample to C2 as stated: on a construction-completed state
with a live connection and empty target, `startRequestEndpoints` leaves
the status at `Good` (it does not become `BadInvalidArgument`) and emits
nothing at all. -/
theorem startRequestEndpoints_emptyUrl_not_invalidArgument :
    (startRequestEndpoints envNone emptyUrlState).1.m_status
        ≠ { m_statusCode := QOpcUa.BadInvalidArgument } ∧
      (startRequestEndpoints envNone emptyUrlState).2 = [] := by
  decide

/-- C4: `at(row)` returns the stored endpoint for `0 ≤ row < count` and
the default-constructed invalid sentinel for `row ≥ count`, but a
negative `row` slips past the `row >= m_endpoints.count()` guard into
`QVector::at(row)`, an out-of-bounds access (`none`), instead of
returning the sentinel. -/
theorem atRow_negative_out_of_bounds :
    atRow twoEpState 0 = some ep0 ∧ atRow twoEpState 1 = some ep1 ∧
      atRow twoEpState 2 = some QOpcUaEndpointDescription.invalid ∧
      atRow twoEpState (-1) = none := by
  decide

/-- C6: a matching completion with a good (success) translated status
replaces the ResultSet wholesale with the delivered list and emits
exactly `endpointsChanged`, `countChanged`, `statusChanged`, in that
order. -/
theorem handleEndpoints_good_publishes (s : DiscoveryState)
    (endpoints : List QOpcUaEndpointDescription) (statusCode : Nat)
    (requestUrl : String) (hurl : requestUrl = s.m_serverUrl)
    (hgood : OpcUaStatus.isGood { m_statusCode := statusCode } = true) :
    handleEndpoints s endpoints statusCode requestUrl
      = ({ s with
            m_status := { m_statusCode := statusCode }
            m_endpoints := endpoints },
          [Event.endpointsChanged, Event.countChanged, Event.statusChanged]) := by
  have hbad : OpcUaStatus.isBad { m_statusCode := statusCode } = false := by
    unfold OpcUaStatus.isBad
    unfold OpcUaStatus.isGood at hgood
    simp [hgood]
  unfold handleEndpoints
  simp [hurl, hbad]

/-- Witness for C6 at a concrete matching good completion. -/
theorem handleEndpoints_good_publishes_witness :
    OpcUaStatus.isGood { m_statusCode := QOpcUa.Good } = true ∧
      handleEndpoints urlAState [ep0, ep1] QOpcUa.Good "a"
        = ({ urlAState with
              m_status := { m_statusCode := QOpcUa.Good }
              m_endpoints := [ep0, ep1] },
            [Event.endpointsChanged, Event.countChanged, Event.statusChanged]) :=
  ⟨by decide,
    handleEndpoints_good_publishes urlAState [ep0, ep1] QOpcUa.Good "a" rfl
      (by decide)⟩

/-- C9: a matching completion whose translated status is not good (with
`OpcUaStatus`, not-good and bad coincide) only stores the status and
emits `statusChanged`; the ResultSet is left untouched and neither
`endpointsChanged` nor `countChanged` fires. -/
theorem handleEndpoints_notGood_statusOnly (s : DiscoveryState)
    (endpoints : List QOpcUaEndpointDescription) (statusCode : Nat)
    (requestUrl : String) (hurl : requestUrl = s.m_serverUrl)
    (hnotgood : OpcUaStatus.isGood { m_statusCode := statusCode } = false) :
    handleEndpoints s endpoints statusCode requestUrl
      = ({ s with m_status := { m_statusCode := statusCode } },
          [Event.statusChanged]) := by
  have hbad : OpcUaStatus.isBad { m_statusCode := statusCode } = true := by
    unfold OpcUaStatus.isBad
    unfold OpcUaStatus.isGood at hnotgood
    simp [hnotgood]
  unfold handleEndpoints
  simp [hurl, hbad]

/-- Witness for C9 at a concrete matching bad completion: the result
list is dropped, only the status is stored. -/
theorem handleEndpoints_notGood_statusOnly_witness :
    OpcUaStatus.isGood { m_statusCode := QOpcUa.BadNotConnected } = false ∧
      handleEndpoints urlAState [ep0] QOpcUa.BadNotConnected "a"
        = ({ urlAState with
              m_status := { m_statusCode := QOpcUa.BadNotConnected } },
            [Event.statusChanged]) :=
  ⟨by decide,
    handleEndpoints_notGood_statusOnly urlAState [ep0] QOpcUa.BadNotConnected
      "a" rfl (by decide)⟩

/-- C10: the acceptance test of `handleEndpoints` is `!isBad`, not
`== Good`: every matching completion whose translated status is not bad
— including uncertain-severity and other good-family codes — stores the
delivered list and fires the full
`endpointsChanged`/`countChanged`/`statusChanged` sequence. -/
theorem handleEndpoints_notBad_publishes (s : DiscoveryState)
    (endpoints : List QOpcUaEndpointDescription) (statusCode : Nat)
    (requestUrl : String) (hurl : requestUrl = s.m_serverUrl)
    (hnotbad : OpcUaStatus.isBad { m_statusCode := statusCode } = false) :
    handleEndpoints s endpoints statusCode requestUrl
      = ({ s with
            m_status := { m_statusCode := statusCode }
            m_endpoints := endpoints },
          [Event.endpointsChanged, Event.countChanged, Event.statusChanged]) := by
  unfold handleEndpoints
  simp [hurl, hnotbad]

theorem requestsOf_append (a b : List Event) :
    requestsOf (a ++ b) = requestsOf a ++ requestsOf b := by
  unfold requestsOf
  exact List.filterMap_append a b _

theorem startRequestEndpoints_notCompleted (env : Env) (s : DiscoveryState)
    (h : s.m_componentCompleted = false) :
    startRequestEndpoints env s = (s, []) := by
  unfold startRequestEndpoints
  simp [h]

theorem applyOp_config_preConstruction (env : Env) (s : DiscoveryState)
    (op : Op) (hcfg : op.isConfig = true)
    (h : s.m_componentCompleted = false) :
    (applyOp env s op).1.m_componentCompleted = false ∧
      requestsOf (applyOp env s op).2 = [] := by
  cases op with
  | setServerUrl url =>
    simp only [applyOp]
    unfold setServerUrl
    split
    · exact ⟨h, rfl⟩
    · rw [startRequestEndpoints_notCompleted env { s with m_serverUrl := url } h]
      exact ⟨h, rfl⟩
  | setConnection conn =>
    simp only [applyOp]
    cases conn with
    | none => exact ⟨h, rfl⟩
    | some c =>
      simp only [setConnection]
      split
      · exact ⟨h, rfl⟩
      · rw [startRequestEndpoints_notCompleted env
          { s with m_connection := some c } h]
        exact ⟨h, rfl⟩
  | componentComplete => simp [Op.isConfig] at hcfg
  | startRequestEndpoints => simp [Op.isConfig] at hcfg
  | handleEndpoints endpoints statusCode requestUrl => simp [Op.isConfig] at hcfg

theorem runOps_config_no_requests (env : Env) (s : DiscoveryState)
    (ops : List Op) (hc : ∀ op ∈ ops, op.isConfig = true)
    (h : s.m_componentCompleted = false) :
    (runOps env s ops).1.m_componentCompleted = false ∧
      requestsOf (runOps env s ops).2 = [] := by
  induction ops generalizing s with
  | nil => exact ⟨h, rfl⟩
  | cons op ops ih =>
    have h1 := applyOp_config_preConstruction env s op
      (hc op (List.mem_cons_self op ops)) h
    have h2 := ih (applyOp env s op).1
      (fun o ho => hc o (List.mem_cons_of_mem op ho)) h1.1
    unfold runOps
    refine ⟨h2.1, ?_⟩
    rw [requestsOf_append, h1.2, h2.2]
    rfl

theorem startRequestEndpoints_requests (env : Env) (s : DiscoveryState)
    (h : s.m_componentCompleted = true) :
    requestsOf (startRequestEndpoints env s).2
      = if canIssue env s then [s.m_serverUrl] else [] := by
  unfold startRequestEndpoints canIssue resolvedConnection
  by_cases hurl : s.m_serverUrl.isEmpty = true
  · simp [h, hurl, requestsOf]
  · cases hcon : s.m_connection with
    | some c =>
      unfold startRequestCore
      cases hcl : c.hasClient <;>
        simp [h, hurl, hcon, hcl, requestsOf]
    | none =>
      cases hdef : env.defaultConnection with
      | none => simp [h, hurl, hcon, hdef, requestsOf]
      | some c =>
        unfold startRequestCore
        cases hcl : c.hasClient <;>
          simp [h, hurl, hcon, hdef, hcl, requestsOf]

theorem componentComplete_requests (env : Env) (s : DiscoveryState) :
    requestsOf (componentComplete env s).2
      = if canIssue env s then [s.m_serverUrl] else [] :=
  startRequestEndpoints_requests env
    { s with m_componentCompleted := true } rfl

/-- Witness for C10 at an uncertain-severity status code, which is not
bad yet differs from `Good`: the results are still published. -/
theorem handleEndpoints_notBad_publishes_witness :
    OpcUaStatus.isBad { m_statusCode := QOpcUa.UncertainInitialValue } = false ∧
      ({ m_statusCode := QOpcUa.UncertainInitialValue } : OpcUaStatus)
        ≠ { m_statusCode := QOpcUa.Good } ∧
      handleEndpoints urlAState [ep0] QOpcUa.UncertainInitialValue "a"
        = ({ urlAState with
              m_status := { m_statusCode := QOpcUa.UncertainInitialValue }
              m_endpoints := [ep0] },
            [Event.endpointsChanged, Event.countChanged, Event.statusChanged]) :=
  ⟨by decide, by decide,
    handleEndpoints_notBad_publishes urlAState [ep0]
      QOpcUa.UncertainInitialValue "a" rfl (by decide)⟩

/-- C1 (amended): the only operation that can take the ResultSet from
empty to non-empty is an accepted completion, and immediately after it
the StatusValue is not bad — it need not equal `Good` (any non-bad code,
e.g. `GoodCompletesAsynchronously`, is stored alongside the results),
and a later matching bad completion can leave a stale non-empty
ResultSet next to a bad status. -/
theorem applyOp_new_results_not_bad (env : Env) (s : DiscoveryState)
    (op : Op) (hemp : s.m_endpoints = [])
    (hne : (applyOp env s op).1.m_endpoints ≠ []) :
    (applyOp env s op).1.m_status.isBad = false := by
  cases op with
  | setServerUrl url =>
    refine absurd ?_ hne
    simp only [applyOp]
    unfold setServerUrl
    split
    · exact hemp
    · exact startRequestEndpoints_endpoints_empty env _ hemp
  | setConnection conn =>
    refine absurd ?_ hne
    simp only [applyOp]
    cases conn with
    | none => exact hemp
    | some c =>
      simp only [setConnection]
      split
      · exact hemp
      · exact startRequestEndpoints_endpoints_empty env _ hemp
  | componentComplete =>
    exact absurd
      (startRequestEndpoints_endpoints_empty env
        { s with m_componentCompleted := true } hemp) hne
  | startRequestEndpoints =>
    exact absurd (startRequestEndpoints_endpoints_empty env s hemp) hne
  | handleEndpoints endpoints statusCode requestUrl =>
    simp only [applyOp] at hne ⊢
    unfold handleEndpoints at hne ⊢
    by_cases hu : requestUrl ≠ s.m_serverUrl
    · simp only [if_pos hu] at hne
      exact absurd hemp hne
    · by_cases hb : OpcUaStatus.isBad { m_statusCode := statusCode } = true
      · simp only [if_neg hu, if_pos hb] at hne
        exact absurd hemp hne
      · simp only [if_neg hu, if_neg hb]
        exact Bool.eq_false_iff.mpr hb

/-- Witness for amended C1: an accepted `Good` completion fills the
ResultSet and the stored status is not bad. -/
theorem applyOp_new_results_not_bad_witness :
    (applyOp envNone urlAState
        (Op.handleEndpoints [ep0] QOpcUa.Good "a")).1.m_status.isBad = false :=
  applyOp_new_results_not_bad envNone urlAState
    (Op.handleEndpoints [ep0] QOpcUa.Good "a") rfl (by decide)

/-- Counterexample to C1 as stated: after construction completes, target
`"a"` is set and a matching completion arrives with the non-bad status
`GoodCompletesAsynchronously`, the reached state has a non-empty
ResultSet while the StatusValue differs from `Good`. -/
theorem resultSet_nonEmpty_status_not_Good :
    ((runOps envNone initState
          [Op.componentComplete, Op.setServerUrl "a",
            Op.handleEndpoints [ep0] QOpcUa.GoodCompletesAsynchronously
              "a"]).1.m_endpoints ≠ []) ∧
      (runOps envNone initState
          [Op.componentComplete, Op.setServerUrl "a",
            Op.handleEndpoints [ep0] QOpcUa.GoodCompletesAsynchronously
              "a"]).1.m_status ≠ { m_statusCode := QOpcUa.Good } := by
  decide

/-- C5 (amended): any sequence of `setServerUrl`/`setConnection` calls
before `componentComplete` sends no discovery request to the transport;
the `componentComplete` call then issues exactly one request carrying
the final target — when the final target is non-empty and the resolved
connection (stored, or the lazily adopted default) has a live backend
client — and no request otherwise. -/
theorem deferred_start_single_request (env : Env) (ops : List Op)
    (hc : ∀ op ∈ ops, op.isConfig = true) :
    requestsOf (runOps env initState ops).2 = [] ∧
      requestsOf (componentComplete env (runOps env initState ops).1).2
        = if canIssue env (runOps env initState ops).1
          then [(runOps env initState ops).1.m_serverUrl] else [] :=
  ⟨(runOps_config_no_requests env initState ops hc rfl).2,
    componentComplete_requests env (runOps env initState ops).1⟩

/-- Witness for amended C5: target and live connection set during
construction produce no request until `componentComplete`, then exactly
one request with the final target. -/
theorem deferred_start_single_request_witness :
    requestsOf (runOps envNone initState
        [Op.setServerUrl "a", Op.setConnection (some connLive)]).2 = [] ∧
      requestsOf (componentComplete envNone (runOps envNone initState
          [Op.setServerUrl "a", Op.setConnection (some connLive)]).1).2
        = if canIssue envNone (runOps envNone initState
              [Op.setServerUrl "a", Op.setConnection (some connLive)]).1
          then [(runOps envNone initState
              [Op.setServerUrl "a", Op.setConnection (some connLive)]).1.m_serverUrl]
          else [] :=
  deferred_start_single_request envNone
    [Op.setServerUrl "a", Op.setConnection (some connLive)] (by decide)

/-- Counterexample to C5 as stated: construction sets target `"a"` and a
connection whose backend client is null; `componentComplete` then fires
zero discovery requests, not exactly one. -/
theorem componentComplete_may_fire_no_request :
    requestsOf (runOps envNone initState
        [Op.setServerUrl "a", Op.setConnection (some connDead),
          Op.componentComplete]).2 = [] := by
  decide

/-- C8 (amended): every `startRequestEndpoints` invocation that passes
the construction-complete and non-empty-target guards and can resolve a
connection (one is stored, or a default exists for the lazy-resolution
branch to adopt) ends by emitting `endpointsChanged` then
`statusChanged`; when no connection is stored and no default connection
exists, the invocation clears the ResultSet and returns without any
notification. -/
theorem startRequestEndpoints_notifies_in_order (env : Env)
    (s : DiscoveryState) (hcompl : s.m_componentCompleted = true)
    (hurl : s.m_serverUrl.isEmpty = false)
    (hconn : s.m_connection ≠ none ∨ env.defaultConnection ≠ none) :
    ∃ l, (startRequestEndpoints env s).2
        = l ++ [Event.endpointsChanged, Event.statusChanged] := by
  unfold startRequestEndpoints
  simp only [hcompl, hurl, Bool.not_true, Bool.false_eq_true, if_false]
  cases hcon : s.m_connection with
  | some c =>
    unfold startRequestCore
    simp only [hcon]
    by_cases hcl : c.hasClient = true
    · refine ⟨[Event.requestEndpoints s.m_serverUrl], ?_⟩
      simp [hurl, hcl]
    · refine ⟨[], ?_⟩
      simp [hcl]
  | none =>
    cases hdef : env.defaultConnection with
    | none =>
      rcases hconn with hconn | hconn
      · exact absurd hcon hconn
      · exact absurd hdef hconn
    | some c =>
      unfold startRequestCore
      by_cases hcl : c.hasClient = true
      · refine ⟨[Event.connectionChanged c.id,
          Event.requestEndpoints s.m_serverUrl], ?_⟩
        simp [hurl, hcl]
      · refine ⟨[Event.connectionChanged c.id], ?_⟩
        simp [hcl]

/-- Witness for amended C8 on a completed state with target `"a"` and a
stored live connection. -/
theorem startRequestEndpoints_notifies_in_order_witness :
    ∃ l, (startRequestEndpoints envNone readyState).2
        = l ++ [Event.endpointsChanged, Event.statusChanged] :=
  startRequestEndpoints_notifies_in_order envNone readyState rfl rfl
    (Or.inl (by decide))

/-- Counterexample to C8 as stated: with no stored connection and no
default connection registered, an invocation that passes both guards
takes the lazy-resolution branch and returns with no notification at
all. -/
theorem startRequestEndpoints_lazy_no_default_silent :
    urlAState.m_componentCompleted = true ∧
      urlAState.m_serverUrl.isEmpty = false ∧
      (startRequestEndpoints envNone urlAState).2 = [] := by
  decide
